import Mathlib

/-!
Verification of the portal manager (`src/index.js`).

The development has two parts:

* the placement engine: the pure coordinate computation performed by
  `PortalManager.positionElement` (src/index.js lines 145-212), modelled over
  the rationals (JS numbers here only undergo `+`, `-`, `/ 2` and comparisons,
  all exact on the inputs of interest);

* the surface registry and DOM bookkeeping: `_createPortal`, `getPortal`,
  `addToPortal`, `removeFromPortal` and `destroy`, modelled by explicit state
  passing over a DOM whose nodes are natural-number identifiers and whose
  structure is a parent map.  `document.body` and `document.head` are the
  fixed nodes `0` and `1`.  The `Signal#emit` calls are modelled by an event
  log appended to the manager state.  Inline presentational styles
  (`cssText`, `pointerEvents`, `transform`) are not observable by any
  structural operation and are not modelled; the `<style>` elements appended
  to `document.head` are modelled, as nodes plus a record of the
  `(portal id, z-index)` pair their rule text mentions.
-/

set_option autoImplicit false

/-! ## Placement engine (src/index.js lines 145-212) -/

/-- The result of `getBoundingClientRect()` for the reference element.
`right` and `bottom` are derived fields of a `DOMRect`. -/
structure DomRect where
  left : ℚ
  top : ℚ
  width : ℚ
  height : ℚ
deriving DecidableEq

def DomRect.right (r : DomRect) : ℚ := r.left + r.width

def DomRect.bottom (r : DomRect) : ℚ := r.top + r.height

/-- The measured `offsetWidth` / `offsetHeight` of the element being placed. -/
structure ElementSize where
  width : ℚ
  height : ℚ
deriving DecidableEq

/-- `window.innerWidth` / `window.innerHeight`. -/
structure Viewport where
  width : ℚ
  height : ℚ
deriving DecidableEq

/-- The `switch (placement)` of `positionElement` (lines 156-192): the ideal
`(translateX, translateY)` before viewport adjustment.  The branches appear in
source order; the final branch is the `default` case. -/
def idealPosition (placement : String) (rect : DomRect) (element : ElementSize)
    (margin : ℚ) : ℚ × ℚ :=
  if placement = "top" then
    (rect.left + rect.width / 2 - element.width / 2, rect.top - element.height - margin)
  else if placement = "bottom" then
    (rect.left + rect.width / 2 - element.width / 2, rect.bottom + margin)
  else if placement = "left" then
    (rect.left - element.width - margin, rect.top + rect.height / 2 - element.height / 2)
  else if placement = "right" then
    (rect.right + margin, rect.top + rect.height / 2 - element.height / 2)
  else if placement = "bottom-left" then
    (rect.left, rect.bottom + margin)
  else if placement = "bottom-right" then
    (rect.right - element.width, rect.bottom + margin)
  else if placement = "top-left" then
    (rect.left, rect.top - element.height - margin)
  else if placement = "top-right" then
    (rect.right - element.width, rect.top - element.height - margin)
  else
    (rect.left, rect.bottom + margin)

/-- The viewport adjustment of `positionElement` (lines 198-212): four
independent `if` statements, in source order. -/
def clampPosition (pos : ℚ × ℚ) (element : ElementSize) (viewport : Viewport) : ℚ × ℚ :=
  let x1 := if pos.1 < 0 then 0 else pos.1
  let y1 := if pos.2 < 0 then 0 else pos.2
  let x2 := if x1 + element.width > viewport.width then viewport.width - element.width else x1
  let y2 := if y1 + element.height > viewport.height then viewport.height - element.height else y1
  (x2, y2)

/-- The full coordinate computation of `positionElement`: ideal position, then
viewport adjustment. -/
def positionCoords (placement : String) (rect : DomRect) (element : ElementSize)
    (margin : ℚ) (viewport : Viewport) : ℚ × ℚ :=
  clampPosition (idealPosition placement rect element margin) element viewport

/-- Modelled from the spec, for comparison with `idealPosition`: the 8-mode
table of section 4.2 step 1, including the unrecognized-mode fallback row
(anchor.left, anchor.bottom + margin). -/
def idealPositionSpecTable (mode : String) (anchor : DomRect) (element : ElementSize)
    (margin : ℚ) : ℚ × ℚ :=
  if mode = "top" then
    (anchor.left + anchor.width / 2 - element.width / 2, anchor.top - element.height - margin)
  else if mode = "bottom" then
    (anchor.left + anchor.width / 2 - element.width / 2, anchor.bottom + margin)
  else if mode = "left" then
    (anchor.left - element.width - margin, anchor.top + anchor.height / 2 - element.height / 2)
  else if mode = "right" then
    (anchor.right + margin, anchor.top + anchor.height / 2 - element.height / 2)
  else if mode = "top-left" then
    (anchor.left, anchor.top - element.height - margin)
  else if mode = "top-right" then
    (anchor.right - element.width, anchor.top - element.height - margin)
  else if mode = "bottom-left" then
    (anchor.left, anchor.bottom + margin)
  else if mode = "bottom-right" then
    (anchor.right - element.width, anchor.bottom + margin)
  else
    (anchor.left, anchor.bottom + margin)

/-- Modelled from the spec, for comparison with `clampPosition`: section 4.2
step 2, the four clamp steps in the spec's order. -/
def clampSpec (pos : ℚ × ℚ) (element : ElementSize) (viewport : Viewport) : ℚ × ℚ :=
  let x1 := if pos.1 < 0 then 0 else pos.1
  let y1 := if pos.2 < 0 then 0 else pos.2
  let x2 := if x1 + element.width > viewport.width then viewport.width - element.width else x1
  let y2 := if y1 + element.height > viewport.height then viewport.height - element.height else y1
  (x2, y2)
/-! ## Surface registry and DOM bookkeeping (src/index.js lines 10-243)

The host DOM is a parent map over natural-number node identifiers;
`document.body` is node 0 and `document.head` is node 1, both present from
the start.  `document.createElement` hands out fresh identifiers from
`nextId`.  `Node#contains` (inclusive-descendant test) walks the parent map
with fuel `nextId + 1`, enough for any acyclic chain of allocated nodes. -/

/-- `document.body`. -/
def bodyNode : Nat := 0

/-- `document.head`. -/
def headNode : Nat := 1

/-- The host DOM: an allocation counter, the parent map (a node absent from
`par` is detached), and for each `<style>` element appended by
`_createPortal` the `(portal id, z-index)` pair of its rule text. -/
structure Dom where
  nextId : Nat
  par : List (Nat × Nat)
  styleRules : List (Nat × String × Int)
deriving DecidableEq

/-- `node.parentNode` (`none` plays the role of `null`). -/
def Dom.parentOf (d : Dom) (n : Nat) : Option Nat :=
  (d.par.find? (fun e => e.1 == n)).map (fun e => e.2)

/-- `parent.removeChild(n)` / detaching `n` from the tree. -/
def Dom.detach (d : Dom) (n : Nat) : Dom :=
  { d with par := d.par.filter (fun e => e.1 != n) }

/-- `p.appendChild(c)`: moves `c` under `p` (removing any previous parent
link, as the DOM operation does). -/
def Dom.appendChild (d : Dom) (p c : Nat) : Dom :=
  { d with par := d.par.filter (fun e => e.1 != c) ++ [(c, p)] }

/-- Fuel-bounded walk up the parent map from `b`, looking for `a`. -/
def Dom.containsAux (d : Dom) : Nat → Nat → Nat → Bool
  | 0, _, _ => false
  | fuel + 1, a, b =>
    a == b ||
      match d.parentOf b with
      | some p => d.containsAux fuel a p
      | none => false

/-- `a.contains(b)`: `b` is an inclusive descendant of `a`. -/
def Dom.containsNode (d : Dom) (a b : Nat) : Bool :=
  d.containsAux (d.nextId + 1) a b

/-- The three `Signal`s of the manager; `emit` calls append to a log. -/
inductive PortalEvent where
  | portalCreated (id : String) (portal : Nat)
  | elementAdded (element : Nat) (portalId : String)
  | elementRemoved (element : Nat) (portalId : String)
deriving DecidableEq

/-- The state owned by a `PortalManager` instance: the host DOM it mutates,
`this.portals` (a string-keyed object, modelled as an insertion-ordered
association list with unique keys), and the log of emitted signals. -/
structure PortalManager where
  dom : Dom
  portals : List (String × Nat)
  events : List PortalEvent
deriving DecidableEq

/-- `this.portals[id]` (property lookup). -/
def PortalManager.lookupPortal (pm : PortalManager) (id : String) : Option Nat :=
  (pm.portals.find? (fun e => e.1 == id)).map (fun e => e.2)

/-- `_createPortal(id, zIndex)` (lines 32-77): returns the existing portal if
one is registered under `id`; otherwise creates the portal `<div>` and its
`<style>` element, appends the style to `document.head` and the portal to
`document.body`, registers it, and emits `portalCreated`.  The JS default for
`zIndex` is 9999; callers here always pass it explicitly. -/
def PortalManager.createPortal (pm : PortalManager) (id : String) (zIndex : Int) :
    PortalManager × Nat :=
  match pm.lookupPortal id with
  | some portal => (pm, portal)
  | none =>
    let portal := pm.dom.nextId
    let portalStyle := pm.dom.nextId + 1
    let d0 : Dom :=
      { nextId := pm.dom.nextId + 2
        par := pm.dom.par
        styleRules := pm.dom.styleRules ++ [(portalStyle, (id, zIndex))] }
    let d1 := d0.appendChild headNode portalStyle
    let d2 := d1.appendChild bodyNode portal
    ({ dom := d2
       portals := pm.portals ++ [(id, portal)]
       events := pm.events ++ [.portalCreated id portal] }, portal)

/-- `getPortal(id, zIndex)` (lines 85-87):
`this.portals[id] || this._createPortal(id, zIndex)`.  JS defaults:
`id = "main"`, `zIndex = 9999`. -/
def PortalManager.getPortal (pm : PortalManager) (id : String) (zIndex : Int) :
    PortalManager × Nat :=
  match pm.lookupPortal id with
  | some portal => (pm, portal)
  | none => pm.createPortal id zIndex

/-- `addToPortal(element, portalId)` (lines 95-106): resolves the portal via
`getPortal` (so a missing portal is created with z-index 9999), appends the
element to it, and emits `elementAdded`.  The `pointerEvents = "auto"` inline
style is presentational and not modelled. -/
def PortalManager.addToPortal (pm : PortalManager) (element : Nat)
    (portalId : String) : PortalManager × Nat :=
  let r := pm.getPortal portalId 9999
  let pm1 := r.1
  let portal := r.2
  ({ pm1 with
      dom := pm1.dom.appendChild portal element
      events := pm1.events ++ [.elementAdded element portalId] }, element)

/-- `removeFromPortal(element)` (lines 113-134): finds the first registered
portal whose node `contains` the element; if that portal is the element's
direct `parentNode`, detaches the element, emits `elementRemoved` and returns
true; otherwise returns false with no mutation. -/
def PortalManager.removeFromPortal (pm : PortalManager) (element : Nat) :
    PortalManager × Bool :=
  match pm.portals.find? (fun e => pm.dom.containsNode e.2 element) with
  | some found =>
    if pm.dom.parentOf element = some found.2 then
      ({ pm with
          dom := pm.dom.detach element
          events := pm.events ++ [.elementRemoved element found.1] }, true)
    else (pm, false)
  | none => (pm, false)

/-- One iteration of the cleanup loop of `destroy()` (lines 229-233):
`if (portal && portal.parentNode) portal.parentNode.removeChild(portal)`. -/
def Dom.detachStep (d : Dom) (entry : String × Nat) : Dom :=
  match d.parentOf entry.2 with
  | some _ => d.detach entry.2
  | none => d

/-- `destroy()` (lines 227-237): for each registered portal whose node still
has a parent, removes it from that parent, then clears `this.portals`. -/
def PortalManager.destroy (pm : PortalManager) : PortalManager :=
  let d := pm.portals.foldl Dom.detachStep pm.dom
  { pm with dom := d, portals := [] }

/-- The `PortalManager` constructor (lines 11-24): empty portal registry and
event log, then `_createPortal("main", 9999)` on a fresh document in which
only `body` and `head` exist. -/
def PortalManager.construct : PortalManager :=
  (PortalManager.createPortal
    { dom := { nextId := 2, par := [], styleRules := [] }
      portals := []
      events := [] } "main" 9999).1


/-! Evaluation lemmas: one per branch of the `switch` in `positionElement`,
and one per row of the spec's table. -/

theorem idealPosition_top (r : DomRect) (e : ElementSize) (m : ℚ) :
    idealPosition "top" r e m
      = (r.left + r.width / 2 - e.width / 2, r.top - e.height - m) := by
  unfold idealPosition; rw [if_pos rfl]

theorem idealPosition_bottom (r : DomRect) (e : ElementSize) (m : ℚ) :
    idealPosition "bottom" r e m
      = (r.left + r.width / 2 - e.width / 2, r.bottom + m) := by
  unfold idealPosition; rw [if_neg (by decide), if_pos rfl]

theorem idealPosition_left (r : DomRect) (e : ElementSize) (m : ℚ) :
    idealPosition "left" r e m
      = (r.left - e.width - m, r.top + r.height / 2 - e.height / 2) := by
  unfold idealPosition; rw [if_neg (by decide), if_neg (by decide), if_pos rfl]

theorem idealPosition_right (r : DomRect) (e : ElementSize) (m : ℚ) :
    idealPosition "right" r e m
      = (r.right + m, r.top + r.height / 2 - e.height / 2) := by
  unfold idealPosition
  rw [if_neg (by decide), if_neg (by decide), if_neg (by decide), if_pos rfl]

theorem idealPosition_bottomLeft (r : DomRect) (e : ElementSize) (m : ℚ) :
    idealPosition "bottom-left" r e m = (r.left, r.bottom + m) := by
  unfold idealPosition
  rw [if_neg (by decide), if_neg (by decide), if_neg (by decide), if_neg (by decide),
    if_pos rfl]

theorem idealPosition_bottomRight (r : DomRect) (e : ElementSize) (m : ℚ) :
    idealPosition "bottom-right" r e m = (r.right - e.width, r.bottom + m) := by
  unfold idealPosition
  rw [if_neg (by decide), if_neg (by decide), if_neg (by decide), if_neg (by decide),
    if_neg (by decide), if_pos rfl]

theorem idealPosition_topLeft (r : DomRect) (e : ElementSize) (m : ℚ) :
    idealPosition "top-left" r e m = (r.left, r.top - e.height - m) := by
  unfold idealPosition
  rw [if_neg (by decide), if_neg (by decide), if_neg (by decide), if_neg (by decide),
    if_neg (by decide), if_neg (by decide), if_pos rfl]

theorem idealPosition_topRight (r : DomRect) (e : ElementSize) (m : ℚ) :
    idealPosition "top-right" r e m = (r.right - e.width, r.top - e.height - m) := by
  unfold idealPosition
  rw [if_neg (by decide), if_neg (by decide), if_neg (by decide), if_neg (by decide),
    if_neg (by decide), if_neg (by decide), if_neg (by decide), if_pos rfl]

/-- The `default` branch of the `switch`. -/
theorem idealPosition_default (mode : String) (r : DomRect) (e : ElementSize) (m : ℚ)
    (h1 : mode ≠ "top") (h2 : mode ≠ "bottom") (h3 : mode ≠ "left")
    (h4 : mode ≠ "right") (h5 : mode ≠ "bottom-left") (h6 : mode ≠ "bottom-right")
    (h7 : mode ≠ "top-left") (h8 : mode ≠ "top-right") :
    idealPosition mode r e m = (r.left, r.bottom + m) := by
  unfold idealPosition
  simp [h1, h2, h3, h4, h5, h6, h7, h8]

theorem specTable_top (r : DomRect) (e : ElementSize) (m : ℚ) :
    idealPositionSpecTable "top" r e m
      = (r.left + r.width / 2 - e.width / 2, r.top - e.height - m) := by
  unfold idealPositionSpecTable; rw [if_pos rfl]

theorem specTable_bottom (r : DomRect) (e : ElementSize) (m : ℚ) :
    idealPositionSpecTable "bottom" r e m
      = (r.left + r.width / 2 - e.width / 2, r.bottom + m) := by
  unfold idealPositionSpecTable; rw [if_neg (by decide), if_pos rfl]

theorem specTable_left (r : DomRect) (e : ElementSize) (m : ℚ) :
    idealPositionSpecTable "left" r e m
      = (r.left - e.width - m, r.top + r.height / 2 - e.height / 2) := by
  unfold idealPositionSpecTable; rw [if_neg (by decide), if_neg (by decide), if_pos rfl]

theorem specTable_right (r : DomRect) (e : ElementSize) (m : ℚ) :
    idealPositionSpecTable "right" r e m
      = (r.right + m, r.top + r.height / 2 - e.height / 2) := by
  unfold idealPositionSpecTable
  rw [if_neg (by decide), if_neg (by decide), if_neg (by decide), if_pos rfl]

theorem specTable_topLeft (r : DomRect) (e : ElementSize) (m : ℚ) :
    idealPositionSpecTable "top-left" r e m = (r.left, r.top - e.height - m) := by
  unfold idealPositionSpecTable
  rw [if_neg (by decide), if_neg (by decide), if_neg (by decide), if_neg (by decide),
    if_pos rfl]

theorem specTable_topRight (r : DomRect) (e : ElementSize) (m : ℚ) :
    idealPositionSpecTable "top-right" r e m
      = (r.right - e.width, r.top - e.height - m) := by
  unfold idealPositionSpecTable
  rw [if_neg (by decide), if_neg (by decide), if_neg (by decide), if_neg (by decide),
    if_neg (by decide), if_pos rfl]

theorem specTable_bottomLeft (r : DomRect) (e : ElementSize) (m : ℚ) :
    idealPositionSpecTable "bottom-left" r e m = (r.left, r.bottom + m) := by
  unfold idealPositionSpecTable
  rw [if_neg (by decide), if_neg (by decide), if_neg (by decide), if_neg (by decide),
    if_neg (by decide), if_neg (by decide), if_pos rfl]

theorem specTable_bottomRight (r : DomRect) (e : ElementSize) (m : ℚ) :
    idealPositionSpecTable "bottom-right" r e m = (r.right - e.width, r.bottom + m) := by
  unfold idealPositionSpecTable
  rw [if_neg (by decide), if_neg (by decide), if_neg (by decide), if_neg (by decide),
    if_neg (by decide), if_neg (by decide), if_neg (by decide), if_pos rfl]

/-- The fallback row of the spec's table. -/
theorem specTable_default (mode : String) (r : DomRect) (e : ElementSize) (m : ℚ)
    (h1 : mode ≠ "top") (h2 : mode ≠ "bottom") (h3 : mode ≠ "left")
    (h4 : mode ≠ "right") (h5 : mode ≠ "top-left") (h6 : mode ≠ "top-right")
    (h7 : mode ≠ "bottom-left") (h8 : mode ≠ "bottom-right") :
    idealPositionSpecTable mode r e m = (r.left, r.bottom + m) := by
  unfold idealPositionSpecTable
  simp [h1, h2, h3, h4, h5, h6, h7, h8]

/-- When the element is wider than the viewport, the width adjustment always
fires after the non-negativity adjustment, so the final x is
viewport.width − element.width. -/
theorem clampPosition_wide (pos : ℚ × ℚ) (element : ElementSize) (viewport : Viewport)
    (hw : element.width > viewport.width) :
    (clampPosition pos element viewport).1 = viewport.width - element.width := by
  unfold clampPosition
  dsimp only
  by_cases h : pos.1 < 0
  · simp only [if_pos h]
    rw [if_pos (by linarith : (0 : ℚ) + element.width > viewport.width)]
  · simp only [if_neg h]
    rw [if_pos (show pos.1 + element.width > viewport.width by push_neg at h; linarith)]

/-- When the element is taller than the viewport, the final y is
viewport.height − element.height. -/
theorem clampPosition_tall (pos : ℚ × ℚ) (element : ElementSize) (viewport : Viewport)
    (hh : element.height > viewport.height) :
    (clampPosition pos element viewport).2 = viewport.height - element.height := by
  unfold clampPosition
  dsimp only
  by_cases h : pos.2 < 0
  · simp only [if_pos h]
    rw [if_pos (by linarith : (0 : ℚ) + element.height > viewport.height)]
  · simp only [if_neg h]
    rw [if_pos (show pos.2 + element.height > viewport.height by push_neg at h; linarith)]

/-- C1: for every placement request the ideal coordinates computed by the code
agree with the spec's 8-mode table (stated for every mode string at once, the
fallback row included), and on the concrete example anchor
(100, 100, 50, 20), element (30, 10), margin 5, viewport (1000, 1000) the
modes "bottom", "top-left" and "right" yield (110, 125), (100, 85) and
(155, 105). -/
theorem ideal_matches_spec_table :
    (∀ (mode : String) (anchor : DomRect) (element : ElementSize) (margin : ℚ),
      idealPosition mode anchor element margin
        = idealPositionSpecTable mode anchor element margin)
    ∧ positionCoords "bottom" ⟨100, 100, 50, 20⟩ ⟨30, 10⟩ 5 ⟨1000, 1000⟩ = (110, 125)
    ∧ positionCoords "top-left" ⟨100, 100, 50, 20⟩ ⟨30, 10⟩ 5 ⟨1000, 1000⟩ = (100, 85)
    ∧ positionCoords "right" ⟨100, 100, 50, 20⟩ ⟨30, 10⟩ 5 ⟨1000, 1000⟩ = (155, 105) := by
  refine ⟨fun mode anchor element margin => ?_, ?_, ?_, ?_⟩
  · by_cases h1 : mode = "top"
    · subst h1; rw [idealPosition_top, specTable_top]
    by_cases h2 : mode = "bottom"
    · subst h2; rw [idealPosition_bottom, specTable_bottom]
    by_cases h3 : mode = "left"
    · subst h3; rw [idealPosition_left, specTable_left]
    by_cases h4 : mode = "right"
    · subst h4; rw [idealPosition_right, specTable_right]
    by_cases h5 : mode = "bottom-left"
    · subst h5; rw [idealPosition_bottomLeft, specTable_bottomLeft]
    by_cases h6 : mode = "bottom-right"
    · subst h6; rw [idealPosition_bottomRight, specTable_bottomRight]
    by_cases h7 : mode = "top-left"
    · subst h7; rw [idealPosition_topLeft, specTable_topLeft]
    by_cases h8 : mode = "top-right"
    · subst h8; rw [idealPosition_topRight, specTable_topRight]
    rw [idealPosition_default mode anchor element margin h1 h2 h3 h4 h5 h6 h7 h8,
      specTable_default mode anchor element margin h1 h2 h3 h4 h7 h8 h5 h6]
  · unfold positionCoords
    rw [idealPosition_bottom]
    norm_num [clampPosition, DomRect.bottom, DomRect.right]
  · unfold positionCoords
    rw [idealPosition_topLeft]
    norm_num [clampPosition, DomRect.bottom, DomRect.right]
  · unfold positionCoords
    rw [idealPosition_right]
    norm_num [clampPosition, DomRect.bottom, DomRect.right]

/-- C6: any placement string outside the eight enumerated modes reaches the
`default` branch, which produces the bottom-left fallback
(anchor.left, anchor.bottom + margin); the computation is total, so no mode
is rejected. -/
theorem ideal_unrecognized_fallback (mode : String) (anchor : DomRect)
    (element : ElementSize) (margin : ℚ)
    (h1 : mode ≠ "top") (h2 : mode ≠ "bottom") (h3 : mode ≠ "left")
    (h4 : mode ≠ "right") (h5 : mode ≠ "top-left") (h6 : mode ≠ "top-right")
    (h7 : mode ≠ "bottom-left") (h8 : mode ≠ "bottom-right") :
    idealPosition mode anchor element margin = (anchor.left, anchor.bottom + margin) := by
  unfold idealPosition
  simp [h1, h2, h3, h4, h5, h6, h7, h8]

/-- Witness for C6 at the concrete mode "diagonal". -/
theorem ideal_unrecognized_fallback_witness :
    idealPosition "diagonal" ⟨100, 100, 50, 20⟩ ⟨30, 10⟩ 5 = (100, 125) := by
  have h := ideal_unrecognized_fallback "diagonal" ⟨100, 100, 50, 20⟩ ⟨30, 10⟩ 5
    (by decide) (by decide) (by decide) (by decide) (by decide) (by decide)
    (by decide) (by decide)
  rw [h]
  norm_num [DomRect.bottom]

/-- C2: the code's coordinate computation is exactly the spec's clamp sequence
applied to the ideal position; when the element is wider (resp. taller) than
the viewport the final x (resp. y) is viewport.width − element.width (resp.
height), which is negative; and the concrete clamping example: anchor
(0, 0, 50, 20), element (30, 10), margin 5, viewport (1000, 1000), mode
"top-left" yields (0, 0). -/
theorem clamp_order_and_overflow :
    (∀ (mode : String) (anchor : DomRect) (element : ElementSize) (margin : ℚ)
        (viewport : Viewport),
      positionCoords mode anchor element margin viewport
        = clampSpec (idealPosition mode anchor element margin) element viewport)
    ∧ (∀ (mode : String) (anchor : DomRect) (element : ElementSize) (margin : ℚ)
        (viewport : Viewport), element.width > viewport.width →
      (positionCoords mode anchor element margin viewport).1
          = viewport.width - element.width
        ∧ (positionCoords mode anchor element margin viewport).1 < 0)
    ∧ (∀ (mode : String) (anchor : DomRect) (element : ElementSize) (margin : ℚ)
        (viewport : Viewport), element.height > viewport.height →
      (positionCoords mode anchor element margin viewport).2
          = viewport.height - element.height
        ∧ (positionCoords mode anchor element margin viewport).2 < 0)
    ∧ positionCoords "top-left" ⟨0, 0, 50, 20⟩ ⟨30, 10⟩ 5 ⟨1000, 1000⟩ = (0, 0) := by
  refine ⟨fun _ _ _ _ _ => rfl, ?_, ?_, ?_⟩
  · intro mode anchor element margin viewport hw
    have heq := clampPosition_wide (idealPosition mode anchor element margin)
      element viewport hw
    exact ⟨heq, by unfold positionCoords; rw [heq]; linarith⟩
  · intro mode anchor element margin viewport hh
    have heq := clampPosition_tall (idealPosition mode anchor element margin)
      element viewport hh
    exact ⟨heq, by unfold positionCoords; rw [heq]; linarith⟩
  · unfold positionCoords
    rw [idealPosition_topLeft]
    norm_num [clampPosition, DomRect.bottom, DomRect.right]

/-- Witness for C2: a 2000-wide, 3000-tall element in a 1000 by 1000 viewport
lands at negative coordinates on both axes. -/
theorem clamp_order_and_overflow_witness :
    (2000 : ℚ) > 1000 ∧ (3000 : ℚ) > 1000
      ∧ (positionCoords "bottom" ⟨100, 100, 50, 20⟩ ⟨2000, 3000⟩ 5 ⟨1000, 1000⟩).1
          = -1000
      ∧ (positionCoords "bottom" ⟨100, 100, 50, 20⟩ ⟨2000, 3000⟩ 5 ⟨1000, 1000⟩).2
          = -2000 := by
  have h2 := clamp_order_and_overflow.2.1 "bottom" ⟨100, 100, 50, 20⟩ ⟨2000, 3000⟩ 5
    ⟨1000, 1000⟩ (by norm_num)
  have h3 := clamp_order_and_overflow.2.2.1 "bottom" ⟨100, 100, 50, 20⟩ ⟨2000, 3000⟩ 5
    ⟨1000, 1000⟩ (by norm_num)
  exact ⟨by norm_num, by norm_num, by rw [h2.1]; norm_num, by rw [h3.1]; norm_num⟩

/-! ## Registry lemmas -/

/-- `lookupPortal` misses exactly when the underlying association-list search
misses. -/
theorem lookupPortal_eq_none_iff (pm : PortalManager) (i : String) :
    pm.lookupPortal i = none ↔ pm.portals.find? (fun e => e.1 == i) = none := by
  unfold PortalManager.lookupPortal
  cases pm.portals.find? (fun e => e.1 == i) <;> simp

/-- After a fresh creation the new portal is registered under its id. -/
theorem lookupPortal_after_create (pm : PortalManager) (i : String) (z : Int)
    (h : pm.lookupPortal i = none) :
    (pm.createPortal i z).1.lookupPortal i = some (pm.createPortal i z).2 := by
  unfold PortalManager.createPortal
  split
  · next portal heq => rw [h] at heq; cases heq
  · unfold PortalManager.lookupPortal
    rw [List.find?_append, (lookupPortal_eq_none_iff pm i).mp h]
    simp

/-- Creation preserves distinctness of registered ids. -/
theorem nodup_after_create (pm : PortalManager) (i : String) (z : Int)
    (hnd : (pm.portals.map Prod.fst).Nodup) :
    (((pm.createPortal i z).1).portals.map Prod.fst).Nodup := by
  unfold PortalManager.createPortal
  split
  · exact hnd
  · next heq =>
    have hk := (lookupPortal_eq_none_iff pm i).mp heq
    rw [List.find?_eq_none] at hk
    simp only [List.map_append, List.map_cons, List.map_nil, List.nodup_append]
    refine ⟨hnd, List.nodup_singleton i, ?_⟩
    intro a ha hb
    rw [List.mem_singleton] at hb
    subst hb
    obtain ⟨⟨k, v⟩, hmem, hfst⟩ := List.mem_map.mp ha
    exact hk (k, v) hmem (beq_iff_eq.mpr hfst)

/-- C3: `get(i, p1)` followed by `get(i, p2)` returns the same surface both
times, the second call changes nothing (in particular `p2` is ignored and no
event is emitted), and distinctness of registered ids — at most one surface
per id — is preserved. -/
theorem getPortal_idempotent (pm : PortalManager) (i : String) (p1 p2 : Int) :
    ((pm.getPortal i p1).1.getPortal i p2).2 = (pm.getPortal i p1).2
    ∧ ((pm.getPortal i p1).1.getPortal i p2).1 = (pm.getPortal i p1).1
    ∧ ((pm.portals.map Prod.fst).Nodup →
        (((pm.getPortal i p1).1).portals.map Prod.fst).Nodup) := by
  cases h : pm.lookupPortal i with
  | some portal =>
    have h1 : pm.getPortal i p1 = (pm, portal) := by
      unfold PortalManager.getPortal; rw [h]
    rw [h1]
    have h2 : pm.getPortal i p2 = (pm, portal) := by
      unfold PortalManager.getPortal; rw [h]
    rw [h2]
    exact ⟨rfl, rfl, fun hnd => hnd⟩
  | none =>
    have h1 : pm.getPortal i p1 = pm.createPortal i p1 := by
      unfold PortalManager.getPortal; rw [h]
    have hlook := lookupPortal_after_create pm i p1 h
    have h2 : (pm.createPortal i p1).1.getPortal i p2
        = ((pm.createPortal i p1).1, (pm.createPortal i p1).2) := by
      unfold PortalManager.getPortal; rw [hlook]
    rw [h1, h2]
    exact ⟨rfl, rfl, fun hnd => nodup_after_create pm i p1 hnd⟩

/-- Witness for C3 at the fresh manager, id "tooltip" and two different stack
priorities. -/
theorem getPortal_idempotent_witness :
    ((PortalManager.construct.getPortal "tooltip" 5).1.getPortal "tooltip" 7).2
        = (PortalManager.construct.getPortal "tooltip" 5).2
    ∧ ((PortalManager.construct.getPortal "tooltip" 5).1.getPortal "tooltip" 7).1
        = (PortalManager.construct.getPortal "tooltip" 5).1
    ∧ ((PortalManager.construct.portals.map Prod.fst).Nodup →
        (((PortalManager.construct.getPortal "tooltip" 5).1).portals.map Prod.fst).Nodup) :=
  getPortal_idempotent PortalManager.construct "tooltip" 5 7

/-- C7: immediately after construction the surface "main" exists with stack
priority 9999 (its style rule records 9999 and its root node 2 is attached to
`document.body`), exactly one creation event has been emitted, and a
subsequent `get("main")` returns that same surface with the state — in
particular the event log — unchanged. -/
theorem construct_main_portal :
    PortalManager.construct.lookupPortal "main" = some 2
    ∧ PortalManager.construct.dom.styleRules = [(3, ("main", 9999))]
    ∧ PortalManager.construct.dom.parentOf 2 = some bodyNode
    ∧ PortalManager.construct.events = [.portalCreated "main" 2]
    ∧ PortalManager.construct.getPortal "main" 9999 = (PortalManager.construct, 2) := by
  refine ⟨rfl, rfl, rfl, rfl, rfl⟩

/-- If the element's `parentNode` is not the node of any registered portal,
`removeFromPortal` returns false and leaves the state untouched: whichever
portal the containment scan finds first, the direct-parent test fails. -/
theorem removeFromPortal_no_direct_parent (pm : PortalManager) (element : Nat)
    (h : ∀ q ∈ pm.portals, pm.dom.parentOf element ≠ some q.2) :
    pm.removeFromPortal element = (pm, false) := by
  unfold PortalManager.removeFromPortal
  split
  · next found heq =>
    rw [if_neg (h found (List.mem_of_find?_eq_some heq))]
  · rfl

/-- C5: an element that is not a direct child of any registered portal's node
— in particular one nested two or more levels deep inside a portal — is not
removed: `removeFromPortal` returns false, mutates nothing and emits no
event (the state is returned unchanged, and no error is possible). -/
theorem remove_returns_false_when_not_direct_child (pm : PortalManager)
    (element : Nat)
    (h : ∀ q ∈ pm.portals, pm.dom.parentOf element ≠ some q.2) :
    pm.removeFromPortal element = (pm, false) :=
  removeFromPortal_no_direct_parent pm element h

/-- Witness for C5: starting from the fresh manager, node 4 is added to
"main" (so it is a child of the portal root 2) and node 5 is nested inside
node 4 by a host-tree append.  Node 5 is a grandchild of the portal root, and
`removeFromPortal` returns false leaving the state unchanged. -/
theorem remove_returns_false_when_not_direct_child_witness :
    PortalManager.removeFromPortal
      { (PortalManager.construct.addToPortal 4 "main").1 with
        dom := (PortalManager.construct.addToPortal 4 "main").1.dom.appendChild 4 5 } 5
      = ({ (PortalManager.construct.addToPortal 4 "main").1 with
           dom := (PortalManager.construct.addToPortal 4 "main").1.dom.appendChild 4 5 },
          false) := by
  refine remove_returns_false_when_not_direct_child _ 5 ?_
  decide

/-- C10: for a registered portal root whose own parent is not any portal's
node (its parent is `document.body`), `removeFromPortal` applied to the root
returns false and leaves its attachment — and everything else — unchanged, so
no portal root can be detached through element removal. -/
theorem remove_never_detaches_portal_root (pm : PortalManager) (id : String)
    (root : Nat) (_hmem : (id, root) ∈ pm.portals)
    (h : ∀ q ∈ pm.portals, pm.dom.parentOf root ≠ some q.2) :
    pm.removeFromPortal root = (pm, false)
    ∧ (pm.removeFromPortal root).1.dom.parentOf root = pm.dom.parentOf root := by
  have hr := removeFromPortal_no_direct_parent pm root h
  exact ⟨hr, by rw [hr]⟩

/-- Witness for C10: the "main" portal root of the fresh manager (a child of
`document.body`, which is no portal's node) survives `removeFromPortal`. -/
theorem remove_never_detaches_portal_root_witness :
    PortalManager.construct.removeFromPortal 2 = (PortalManager.construct, false)
    ∧ (PortalManager.construct.removeFromPortal 2).1.dom.parentOf 2
        = PortalManager.construct.dom.parentOf 2 :=
  remove_never_detaches_portal_root PortalManager.construct "main" 2 (by decide)
    (by decide)

/-! ## Teardown lemmas -/

/-- `parentOf` misses exactly when the parent-map search misses. -/
theorem parentOf_eq_none_iff (d : Dom) (n : Nat) :
    d.parentOf n = none ↔ d.par.find? (fun e => e.1 == n) = none := by
  unfold Dom.parentOf
  cases d.par.find? (fun e => e.1 == n) <;> simp

/-- A search that already misses still misses on a filtered list. -/
theorem find?_filter_none {α : Type} (p f : α → Bool) (l : List α)
    (h : l.find? p = none) : (l.filter f).find? p = none := by
  rw [List.find?_eq_none] at h ⊢
  exact fun x hx => h x (List.mem_of_mem_filter hx)

/-- A search misses on a filtered list when the filter drops every hit. -/
theorem find?_filter_eq_none {α : Type} (p f : α → Bool) (l : List α)
    (h : ∀ a, p a = true → f a = false) : (l.filter f).find? p = none := by
  rw [List.find?_eq_none]
  intro x hx hpx
  have := List.of_mem_filter hx
  rw [h x hpx] at this
  cases this

/-- A search is unchanged by a filter that keeps every hit. -/
theorem find?_filter_of_imp {α : Type} (p f : α → Bool) (l : List α)
    (h : ∀ a, p a = true → f a = true) : (l.filter f).find? p = l.find? p := by
  induction l with
  | nil => rfl
  | cons a t ih =>
    by_cases hp : p a = true
    · rw [List.filter_cons, if_pos (h a hp), List.find?_cons_of_pos _ hp,
        List.find?_cons_of_pos _ hp]
    · rw [List.find?_cons_of_neg _ hp, ← ih, List.filter_cons]
      split
      · rw [List.find?_cons_of_neg _ hp]
      · rfl

/-- Detaching a node removes its parent link. -/
theorem parentOf_detach_self (d : Dom) (n : Nat) :
    (d.detach n).parentOf n = none := by
  rw [parentOf_eq_none_iff]
  unfold Dom.detach
  refine find?_filter_eq_none _ _ _ (fun a ha => ?_)
  simp only [bne, ha, Bool.not_true]

/-- Detaching one node leaves every other node's parent link unchanged. -/
theorem parentOf_detach_other (d : Dom) (n m : Nat) (h : n ≠ m) :
    (d.detach m).parentOf n = d.parentOf n := by
  unfold Dom.parentOf Dom.detach
  rw [find?_filter_of_imp]
  intro a ha
  exact bne_iff_ne.mpr (fun hc => h ((beq_iff_eq.mp ha) ▸ hc ▸ rfl))

/-- A detached node stays detached across a further detach. -/
theorem parentOf_detach_none (d : Dom) (n m : Nat) (h : d.parentOf n = none) :
    (d.detach m).parentOf n = none := by
  rw [parentOf_eq_none_iff] at h ⊢
  unfold Dom.detach
  exact find?_filter_none _ _ _ h

/-- After its own cleanup step a portal node is detached. -/
theorem detachStep_parentOf_self (d : Dom) (q : String × Nat) :
    (d.detachStep q).parentOf q.2 = none := by
  unfold Dom.detachStep
  split
  · exact parentOf_detach_self d q.2
  · next h => exact h

/-- A cleanup step keeps already-detached nodes detached. -/
theorem detachStep_parentOf_none (d : Dom) (n : Nat) (q : String × Nat)
    (h : d.parentOf n = none) : (d.detachStep q).parentOf n = none := by
  unfold Dom.detachStep
  split
  · exact parentOf_detach_none d n q.2 h
  · exact h

/-- A cleanup step does not touch other nodes' parent links. -/
theorem detachStep_parentOf_other (d : Dom) (n : Nat) (q : String × Nat)
    (h : n ≠ q.2) : (d.detachStep q).parentOf n = d.parentOf n := by
  unfold Dom.detachStep
  split
  · exact parentOf_detach_other d n q.2 h
  · rfl

/-- A cleanup step does not touch the recorded style rules. -/
theorem detachStep_styleRules (d : Dom) (q : String × Nat) :
    (d.detachStep q).styleRules = d.styleRules := by
  unfold Dom.detachStep
  split
  · rfl
  · rfl

/-- The cleanup loop keeps already-detached nodes detached. -/
theorem foldl_detachStep_none (l : List (String × Nat)) (d : Dom) (n : Nat)
    (h : d.parentOf n = none) : (l.foldl Dom.detachStep d).parentOf n = none := by
  induction l generalizing d with
  | nil => exact h
  | cons q t ih => exact ih _ (detachStep_parentOf_none d n q h)

/-- Every portal processed by the cleanup loop ends up detached. -/
theorem foldl_detachStep_mem (l : List (String × Nat)) (d : Dom)
    (q : String × Nat) (h : q ∈ l) :
    (l.foldl Dom.detachStep d).parentOf q.2 = none := by
  induction l generalizing d with
  | nil => cases h
  | cons a t ih =>
    rcases List.mem_cons.mp h with rfl | ht
    · exact foldl_detachStep_none t _ _ (detachStep_parentOf_self d q)
    · exact ih _ ht

/-- The cleanup loop leaves nodes outside the processed list untouched. -/
theorem foldl_detachStep_other (l : List (String × Nat)) (d : Dom) (n : Nat)
    (h : ∀ q ∈ l, n ≠ q.2) :
    (l.foldl Dom.detachStep d).parentOf n = d.parentOf n := by
  induction l generalizing d with
  | nil => rfl
  | cons a t ih =>
    rw [List.foldl_cons, ih _ (fun q hq => h q (List.mem_cons_of_mem a hq)),
      detachStep_parentOf_other d n a (h a (List.mem_cons_self a t))]

/-- The cleanup loop never touches the recorded style rules. -/
theorem foldl_detachStep_styleRules (l : List (String × Nat)) (d : Dom) :
    (l.foldl Dom.detachStep d).styleRules = d.styleRules := by
  induction l generalizing d with
  | nil => rfl
  | cons a t ih => rw [List.foldl_cons, ih _, detachStep_styleRules]

/-- C8: `destroy()` empties the registry and detaches every registered
portal's root node from the host tree, and calling it a second time raises
no error and changes nothing — including when "main" is the only surface. -/
theorem destroy_total_and_idempotent (pm : PortalManager) :
    pm.destroy.portals = []
    ∧ (∀ q ∈ pm.portals, pm.destroy.dom.parentOf q.2 = none)
    ∧ pm.destroy.destroy = pm.destroy := by
  refine ⟨rfl, fun q hq => foldl_detachStep_mem pm.portals pm.dom q hq, rfl⟩

/-- Witness for C8 at the fresh manager, where "main" (root node 2) is the
only surface. -/
theorem destroy_total_and_idempotent_witness :
    PortalManager.construct.destroy.portals = []
    ∧ PortalManager.construct.destroy.dom.parentOf 2 = none
    ∧ PortalManager.construct.destroy.destroy = PortalManager.construct.destroy :=
  ⟨(destroy_total_and_idempotent PortalManager.construct).1,
    (destroy_total_and_idempotent PortalManager.construct).2.1 ("main", 2) (by decide),
    (destroy_total_and_idempotent PortalManager.construct).2.2⟩

/-- C9: creating a surface appends a `<style>` element carrying the surface's
`(id, z-index)` rule to `document.head` (here: the new style node is the next
allocated id plus one, its recorded rule is `(id, z)` and its parent is the
head node); and teardown detaches only portal root nodes: the recorded style
rules are unchanged by `destroy()`, and any node other than a registered
portal root — in particular every style element in the head — keeps its
parent link. -/
theorem style_appended_to_head_and_survives_destroy :
    (∀ (pm : PortalManager) (id : String) (z : Int), pm.lookupPortal id = none →
      (pm.createPortal id z).1.dom.styleRules
          = pm.dom.styleRules ++ [(pm.dom.nextId + 1, (id, z))]
      ∧ (pm.createPortal id z).1.dom.parentOf (pm.dom.nextId + 1) = some headNode)
    ∧ (∀ pm : PortalManager, pm.destroy.dom.styleRules = pm.dom.styleRules)
    ∧ (∀ (pm : PortalManager) (n : Nat), (∀ q ∈ pm.portals, n ≠ q.2) →
        pm.destroy.dom.parentOf n = pm.dom.parentOf n) := by
  refine ⟨fun pm id z h => ?_, fun pm => ?_, fun pm n h => ?_⟩
  · unfold PortalManager.createPortal
    split
    · next portal heq => rw [h] at heq; cases heq
    · refine ⟨rfl, ?_⟩
      unfold Dom.appendChild Dom.parentOf
      simp only [List.filter_append, List.find?_append]
      rw [find?_filter_none _ _ _
          (find?_filter_eq_none _ _ pm.dom.par
            (fun a ha => by simp only [bne, ha, Bool.not_true]))]
      have h1 : (((pm.dom.nextId + 1, headNode) : Nat × Nat)
            :: []).filter (fun e => e.1 != pm.dom.nextId)
          = [(pm.dom.nextId + 1, headNode)] := by
        rw [List.filter_cons, if_pos (bne_iff_ne.mpr (Nat.succ_ne_self pm.dom.nextId))]
        rfl
      rw [h1]
      simp [List.find?]
  · exact foldl_detachStep_styleRules pm.portals pm.dom
  · exact foldl_detachStep_other pm.portals pm.dom n h

/-- Witness for C9 at the fresh manager: creating "tip" with z-index 7
appends the style node 5 with rule ("tip", 7) under the head, and after
`destroy()` the style node 3 of "main" keeps its parent (the head) while the
rules record is unchanged. -/
theorem style_appended_to_head_and_survives_destroy_witness :
    ((PortalManager.construct.createPortal "tip" 7).1.dom.styleRules
        = PortalManager.construct.dom.styleRules ++ [(5, ("tip", 7))]
      ∧ (PortalManager.construct.createPortal "tip" 7).1.dom.parentOf 5
          = some headNode)
    ∧ PortalManager.construct.destroy.dom.styleRules
        = PortalManager.construct.dom.styleRules
    ∧ PortalManager.construct.destroy.dom.parentOf 3
        = PortalManager.construct.dom.parentOf 3 :=
  ⟨style_appended_to_head_and_survives_destroy.1 PortalManager.construct "tip" 7
      (by decide),
    style_appended_to_head_and_survives_destroy.2.1 PortalManager.construct,
    style_appended_to_head_and_survives_destroy.2.2 PortalManager.construct 3
      (by decide)⟩

/-! ## Round-trip lemmas -/

/-- The fresh manager, fully evaluated: after construction the DOM holds the
"main" portal root 2 under `body` and its style node 3 under `head`, and one
creation event has been emitted. -/
theorem construct_eq :
    PortalManager.construct
      = ⟨⟨4, [(3, 1), (2, 0)], [(3, ("main", 9999))]⟩, [("main", 2)],
          [.portalCreated "main" 2]⟩ := by
  decide

/-- A node is contained in its direct parent (one step of `Node#contains`),
whenever at least one node has been allocated. -/
theorem containsNode_of_parentOf (d : Dom) (a b : Nat) (h : d.parentOf b = some a)
    (hfuel : 1 ≤ d.nextId) : d.containsNode a b = true := by
  unfold Dom.containsNode
  obtain ⟨k, hk⟩ : ∃ k, d.nextId = k + 1 := ⟨d.nextId - 1, by omega⟩
  rw [hk]
  simp [Dom.containsAux, h]

/-- C4: from a freshly constructed manager and any element node (any id other
than the four nodes existing after construction), `add(e, "main")` followed
by `remove(e)` returns true, detaches the element and emits
`elementRemoved(e, "main")`; a second `remove(e)` returns false and leaves
the state unchanged. -/
theorem add_then_remove_roundtrip (e : Nat) (he : 4 ≤ e) :
    ((PortalManager.construct.addToPortal e "main").1.removeFromPortal e).2 = true
    ∧ ((PortalManager.construct.addToPortal e "main").1.removeFromPortal e).1.dom.parentOf e
        = none
    ∧ ((PortalManager.construct.addToPortal e "main").1.removeFromPortal e).1.events
        = (PortalManager.construct.addToPortal e "main").1.events
          ++ [.elementRemoved e "main"]
    ∧ ((PortalManager.construct.addToPortal e "main").1.removeFromPortal e).1.removeFromPortal e
        = (((PortalManager.construct.addToPortal e "main").1.removeFromPortal e).1, false) := by
  have h2 : (2 : Nat) ≠ e := by omega
  have h3 : (3 : Nat) ≠ e := by omega
  have hb2 : ((2 : Nat) == e) = false := beq_eq_false_iff_ne.mpr h2
  have hb3 : ((3 : Nat) == e) = false := beq_eq_false_iff_ne.mpr h3
  have hfil : ([(3, 1), (2, 0)] : List (Nat × Nat)).filter (fun q => q.1 != e)
      = [(3, 1), (2, 0)] := by
    simp [List.filter_cons, bne, hb2, hb3]
  have hadd : PortalManager.construct.addToPortal e "main"
      = (⟨⟨4, [(3, 1), (2, 0), (e, 2)], [(3, ("main", 9999))]⟩, [("main", 2)],
          [.portalCreated "main" 2, .elementAdded e "main"]⟩, e) := by
    have hstep : PortalManager.construct.addToPortal e "main"
        = (⟨⟨4, ([(3, 1), (2, 0)] : List (Nat × Nat)).filter (fun q => q.1 != e)
              ++ [(e, 2)], [(3, ("main", 9999))]⟩, [("main", 2)],
            [.portalCreated "main" 2, .elementAdded e "main"]⟩, e) := rfl
    rw [hstep, hfil]
    rfl
  have hparA : (Dom.mk 4 [(3, 1), (2, 0), (e, 2)] [(3, ("main", 9999))]).parentOf e
      = some 2 := by
    simp [Dom.parentOf, List.find?, hb2, hb3]
  have hcontA : (Dom.mk 4 [(3, 1), (2, 0), (e, 2)] [(3, ("main", 9999))]).containsNode 2 e
      = true :=
    containsNode_of_parentOf _ 2 e hparA (by norm_num)
  have hfind : List.find?
      (fun q => (Dom.mk 4 [(3, 1), (2, 0), (e, 2)] [(3, ("main", 9999))]).containsNode q.2 e)
      [("main", 2)] = some ("main", 2) :=
    List.find?_cons_of_pos _ hcontA
  have hfil2 : ([(3, 1), (2, 0), (e, 2)] : List (Nat × Nat)).filter
      (fun q => q.1 != e) = [(3, 1), (2, 0)] := by
    simp [List.filter_cons, bne, hb2, hb3]
  have hremA : (PortalManager.mk (Dom.mk 4 [(3, 1), (2, 0), (e, 2)] [(3, ("main", 9999))])
        [("main", 2)] [.portalCreated "main" 2, .elementAdded e "main"]).removeFromPortal e
      = (⟨⟨4, [(3, 1), (2, 0)], [(3, ("main", 9999))]⟩, [("main", 2)],
          [.portalCreated "main" 2, .elementAdded e "main", .elementRemoved e "main"]⟩,
        true) := by
    unfold PortalManager.removeFromPortal
    rw [hfind]
    dsimp only
    rw [hparA, if_pos rfl]
    simp only [Dom.detach]
    rw [hfil2]
    rfl
  have hparB : (Dom.mk 4 [(3, 1), (2, 0)] [(3, ("main", 9999))]).parentOf e = none := by
    simp [Dom.parentOf, List.find?, hb2, hb3]
  have hremB : (PortalManager.mk (Dom.mk 4 [(3, 1), (2, 0)] [(3, ("main", 9999))])
        [("main", 2)]
        [.portalCreated "main" 2, .elementAdded e "main",
          .elementRemoved e "main"]).removeFromPortal e
      = (PortalManager.mk (Dom.mk 4 [(3, 1), (2, 0)] [(3, ("main", 9999))])
          [("main", 2)]
          [.portalCreated "main" 2, .elementAdded e "main", .elementRemoved e "main"],
        false) :=
    removeFromPortal_no_direct_parent _ e (by intro q hq; simp [hparB])
  rw [hadd]
  dsimp only
  rw [hremA]
  exact ⟨rfl, hparB, rfl, hremB⟩

/-- Witness for C4 at the concrete element node 7. -/
theorem add_then_remove_roundtrip_witness :
    ((PortalManager.construct.addToPortal 7 "main").1.removeFromPortal 7).2 = true
    ∧ ((PortalManager.construct.addToPortal 7 "main").1.removeFromPortal 7).1.dom.parentOf 7
        = none
    ∧ ((PortalManager.construct.addToPortal 7 "main").1.removeFromPortal 7).1.events
        = (PortalManager.construct.addToPortal 7 "main").1.events
          ++ [.elementRemoved 7 "main"]
    ∧ ((PortalManager.construct.addToPortal 7 "main").1.removeFromPortal 7).1.removeFromPortal 7
        = (((PortalManager.construct.addToPortal 7 "main").1.removeFromPortal 7).1, false) :=
  add_then_remove_roundtrip 7 (by decide)
